import Mathlib

/-
Verification of the PATE sequential differential-privacy accountant
(`pate_accountant.py`, class `PATEPyTorch`).

Shallow embedding notes:
* numpy / torch vectors are `List ℝ`; the per-order RDP accumulator
  `rdp_eps_by_order` (a numpy array indexed by position in the order grid)
  is modelled as a function `ℕ → ℝ` so that elementwise `+=` is pointwise
  addition.
* The external "privacy mathematics library" (`aliases` imports:
  `get_log_q`, `rdp_max_vote`, `rdp_threshold`, `rdp_to_dp`,
  `local_sensitivity`, `local_to_smooth_sens`, `rdp_eps_release`) and the
  random draws (`pt.normal`, `np.random.normal`) are opaque total functions
  bundled in an `Externals` structure.  Python attributes that may be `None`
  (`sigma_thresh`, `threshold_T`, `threshold_gamma`, `selected_order`) are
  `Option ℝ`, and the externals receive the `Option` unchanged, mirroring
  Python passing `None` through.
* Every call the accountant makes to a cost / sensitivity external, and
  every release-noise draw, is additionally recorded as an `Event` carrying
  the arguments of the call, so that claims of the form "function F is (not)
  invoked this round with arguments A" are directly statable.
* Python comparisons of a number against `None` (`>= self.threshold_T`,
  `> self.threshold_gamma`) raise `TypeError`; they are modelled by an
  explicit match whose `none` branch produces the error result `GnRet.err`.
  Likewise `pt.normal(mean, std)` accepts no `None` scale: every torch
  overload needs a numeric `std`, so `pt.normal(0., None)` (gate draw,
  lines 85 and 91) and `pt.normal(ones, None)` (release draw, line 101)
  raise `TypeError` before any draw happens.  The draw oracles therefore
  take a plain real `std`, and the code paths that would pass
  `sigma_thresh = None` to them are `GnRet.err` branches — placed after
  the state mutations Python performs before the raise.
-/

namespace Patepy

/-- torch `max` of a one-dimensional tensor (defined on nonempty lists;
the `[]` default is never reached on the code paths considered). -/
noncomputable def listMax : List ℝ → ℝ
  | [] => 0
  | x :: xs => xs.foldl max x

/-- torch `argmax` of a one-dimensional tensor: index of the first
occurrence of the maximal entry. -/
noncomputable def argmaxIdx : List ℝ → ℕ
  | [] => 0
  | [_] => 0
  | x :: y :: tl => if x < listMax (y :: tl) then argmaxIdx (y :: tl) + 1 else 0

/-- elementwise sum of two tensors of equal length. -/
noncomputable def addVec (a b : List ℝ) : List ℝ := List.zipWith (· + ·) a b

/-- One entry of `votes_log`: `(votes, thresh_votes, released)`. -/
abbrev VoteRec := List ℝ × List ℝ × Bool

/-- Record of one call to an external cost / sensitivity function or one
release-noise draw, carrying the arguments the accountant passed. -/
inductive Event where
  /-- call `rdp_threshold(sigma, orders, threshold_T, votes)` -/
  | threshCost (sigma : Option ℝ) (thresholdT : Option ℝ) (votes : List ℝ)
  /-- call `rdp_max_vote(sigma, orders, get_log_q(votes, sigma))` -/
  | releaseCost (sigma : Option ℝ) (votes : List ℝ)
  /-- draw `pt.normal(mean, std)` added to the votes before the released
  argmax (a vector draw; `mean` is the mean vector, `std` the scale; the
  draw only happens when the scale is an actual number) -/
  | noise (mean : List ℝ) (std : ℝ)
  /-- call `local_sensitivity(v, n_teachers, sigma, order, threshold_T)` -/
  | lsThresh (v : List ℝ) (sigma : Option ℝ) (order : Option ℝ) (thresholdT : Option ℝ)
  /-- call `local_sensitivity(v, n_teachers, sigma, order)` -/
  | lsRelease (v : List ℝ) (sigma : ℝ) (order : Option ℝ)
  /-- call `rdp_eps_release(beta, sigma_eps_release, order)` -/
  | epsRelease (beta : ℝ) (sigma : ℝ) (order : Option ℝ)

/-- whether an event is a `rdp_threshold` (thresholding-cost) call. -/
def Event.isThreshCost : Event → Bool
  | .threshCost _ _ _ => true
  | _ => false

/-- the `order` argument of a `local_sensitivity` / `rdp_eps_release` call,
when the event is one. -/
def Event.orderArg : Event → Option (Option ℝ)
  | .lsThresh _ _ o _ => some o
  | .lsRelease _ _ o => some o
  | .epsRelease _ _ o => some o
  | _ => none

/-- The external privacy-mathematics library (`aliases` imports) together
with the random draws, as opaque total functions.  Cost vectors are indexed
by position in the order grid. -/
structure Externals where
  get_log_q : List ℝ → Option ℝ → List ℝ
  rdp_max_vote : Option ℝ → List ℝ → List ℝ → ℕ → ℝ
  rdp_threshold : Option ℝ → List ℝ → Option ℝ → List ℝ → ℕ → ℝ
  rdp_to_dp : List ℝ → (ℕ → ℝ) → ℝ → ℝ × ℝ
  local_sensitivity : List ℝ → ℕ → Option ℝ → Option ℝ → Option ℝ → ℕ → ℝ
  local_to_smooth_sens : ℝ → (ℕ → ℝ) → ℝ
  rdp_eps_release : ℝ → ℝ → Option ℝ → ℝ
  /-- `pt.normal(mean_tensor, std)`: one vector draw; torch requires a
  numeric `std` (a `None` scale raises a `TypeError` instead) -/
  normal_vec : List ℝ → ℝ → List ℝ
  /-- `pt.normal(0., std)`: one scalar draw; same numeric-`std` requirement -/
  normal0 : ℝ → ℝ
  /-- `np.random.normal(mean, sdev)`: one scalar draw -/
  np_normal : ℝ → ℝ → ℝ

/-- The mutable state of one `PATEPyTorch` instance (`__init__` fields). -/
structure PATEState where
  n_teachers : ℕ
  orders : List ℝ
  target_delta : ℝ
  sigma_votes : ℝ
  sigma_thresh : Option ℝ
  sigma_eps_release : ℝ
  threshold_mode : ℕ
  threshold_T : Option ℝ
  threshold_gamma : Option ℝ
  rdp_eps_by_order : ℕ → ℝ
  votes_log : List VoteRec
  selected_order : Option ℝ
  data_dependent_eps : Option ℝ

/-- `np.arange(start, stop, step)`: `start + k * step` for
`k < ceil((stop - start) / step)`. -/
noncomputable def arange (start stop step : ℝ) : List ℝ :=
  (List.range ⌈(stop - start) / step⌉₊).map (fun k : ℕ => start + (k : ℝ) * step)

/-- `np.logspace(a, b, num)` = `10 ** np.linspace(a, b, num)` with the
endpoint included: `10 ^ (a + k * (b - a) / (num - 1))` for `k < num`. -/
noncomputable def logspace (a b : ℝ) (num : ℕ) : List ℝ :=
  (List.range num).map
    (fun k : ℕ => (10 : ℝ) ^ (a + (k : ℝ) * ((b - a) / ((num : ℝ) - 1))))

/-- `np.round` to the nearest integer.  (numpy rounds halves to even while
Mathlib's `round` rounds halves up; the two agree away from half-integers,
and no half-integer occurs where the theorems below evaluate it — the grid
entries rounded are either integers or irrational.) -/
noncomputable def npRound (x : ℝ) : ℝ := ((round x : ℤ) : ℝ)

/-- `_get_orders(short_list)`: the candidate Rényi order grid.  Short:
`np.round(np.concatenate((np.arange(2, 50 + 1, 1),
np.logspace(np.log10(50), np.log10(1000), num=20))))`.  Full:
`np.concatenate((np.arange(2, 100 + 1, .5),
np.logspace(np.log10(100), np.log10(500), num=100)))`. -/
noncomputable def get_orders (short_list : Bool) : List ℝ :=
  if short_list then
    ((arange 2 (50 + 1) 1) ++
      logspace (Real.logb 10 50) (Real.logb 10 1000) 20).map npRound
  else
    (arange 2 (100 + 1) (1 / 2)) ++ logspace (Real.logb 10 100) (Real.logb 10 500) 100

/-- `self.basic_mode = 0` -/
def basic_mode : ℕ := 0
/-- `self.confident_mode = 1` -/
def confident_mode : ℕ := 1
/-- `self.interactive_mode = 2` -/
def interactive_mode : ℕ := 2

/-- `_get_threshold_mode`: dictionary lookup guarded by
`assert threshold_mode in modes`; a failed assert (unknown mode name) is a
fatal construction error, modelled as `none`. -/
def get_threshold_mode (threshold_mode : String) : Option ℕ :=
  if threshold_mode = "basic" then some basic_mode
  else if threshold_mode = "confident" then some confident_mode
  else if threshold_mode = "interactive" then some interactive_mode
  else none

/-- `__init__`: builds the accountant state.  The only validation performed
is the `assert threshold_mode in modes` inside `_get_threshold_mode`; no
check that `threshold_t` / `threshold_gamma` / `sigma_thresh` are provided
for the modes that use them.  A failed assert is modelled as `none`. -/
noncomputable def pate_init (target_delta sigma_votes : ℝ) (n_teachers : ℕ)
    (sigma_eps_release : ℝ) (threshold_mode : String)
    (threshold_t threshold_gamma sigma_thresh : Option ℝ)
    (short_list_orders : Bool) : Option PATEState :=
  (get_threshold_mode threshold_mode).map (fun mode =>
    { n_teachers := n_teachers
      orders := get_orders short_list_orders
      target_delta := target_delta
      sigma_votes := sigma_votes
      sigma_thresh := sigma_thresh
      sigma_eps_release := sigma_eps_release
      threshold_mode := mode
      threshold_T := threshold_t
      threshold_gamma := threshold_gamma
      rdp_eps_by_order := fun _ => 0  -- np.zeros(len(self.orders))
      votes_log := []
      selected_order := none
      data_dependent_eps := none })

/-- `_add_rdp_loss(votes, sigma, thresh)`: increments `rdp_eps_by_order`
elementwise by the per-order cost vector returned by `rdp_threshold`
(when `thresh`) or `rdp_max_vote` (otherwise). -/
noncomputable def add_rdp_loss (ext : Externals) (s : PATEState) (votes : List ℝ)
    (sigma : Option ℝ) (thresh : Bool) : PATEState :=
  if thresh then
    { s with rdp_eps_by_order := fun i =>
        s.rdp_eps_by_order i + ext.rdp_threshold sigma s.orders s.threshold_T votes i }
  else
    { s with rdp_eps_by_order := fun i =>
        s.rdp_eps_by_order i + ext.rdp_max_vote sigma s.orders (ext.get_log_q votes sigma) i }

/-- Result of one `gn_max` call: a released / student label index, Python
`None` ("no answer"), or a raised exception. -/
inductive GnRet where
  | label (i : ℕ)
  | noAnswer
  | err
deriving DecidableEq

/-- `gn_max(votes, preds)`: the three-mode thresholded release decision.
Returns the Python return value, the post-call state, and the trace of
external cost calls / noise draws made during the call (in call order). -/
noncomputable def gn_max (ext : Externals) (s : PATEState) (votes preds : List ℝ) :
    GnRet × PATEState × List Event :=
  if s.threshold_mode = basic_mode then
    -- release_votes = True; thresh_votes = votes; log appended; release cost
    let s1 := { s with votes_log := s.votes_log ++ [(votes, votes, true)] }
    let s2 := add_rdp_loss ext s1 votes (some s1.sigma_votes) false
    let mean := votes.map (fun _ => (1 : ℝ))  -- pt.ones_like(votes)
    match s2.sigma_thresh with
    | none =>
        -- pt.normal(ones, None) raises TypeError at line 101, after the
        -- release cost was added (line 100) and the record logged (line 96)
        (GnRet.err, s2, [Event.releaseCost (some s1.sigma_votes) votes])
    | some σt =>
        (GnRet.label (argmaxIdx (addVec votes (ext.normal_vec mean σt))), s2,
         [Event.releaseCost (some s1.sigma_votes) votes, Event.noise mean σt])
  else if s.threshold_mode = confident_mode then
    let s1 := add_rdp_loss ext s votes s.sigma_thresh true
    let evT := Event.threshCost s.sigma_thresh s.threshold_T votes
    match s1.sigma_thresh with
    | none => (GnRet.err, s1, [evT])  -- pt.normal(0., None) raises (line 85)
    | some σt =>
      match s1.threshold_T with
      | none => (GnRet.err, s1, [evT])  -- `>= None` raises TypeError
      | some T =>
        if listMax votes + ext.normal0 σt ≥ T then
          let s2 := { s1 with votes_log := s1.votes_log ++ [(votes, votes, true)] }
          let s3 := add_rdp_loss ext s2 votes (some s2.sigma_votes) false
          let mean := votes.map (fun _ => (1 : ℝ))
          -- here self.sigma_thresh = some σt, so line 101's draw succeeds
          (GnRet.label (argmaxIdx (addVec votes (ext.normal_vec mean σt))), s3,
           [evT, Event.releaseCost (some s2.sigma_votes) votes, Event.noise mean σt])
        else
          let s2 := { s1 with votes_log := s1.votes_log ++ [(votes, votes, false)] }
          (GnRet.noAnswer, s2, [evT])
  else if s.threshold_mode = interactive_mode then
    let thresh_votes := List.zipWith (fun v p => v - (s.n_teachers : ℝ) * p) votes preds
    let s1 := add_rdp_loss ext s thresh_votes s.sigma_thresh true
    let evT := Event.threshCost s.sigma_thresh s.threshold_T thresh_votes
    match s1.sigma_thresh with
    | none => (GnRet.err, s1, [evT])  -- pt.normal(0., None) raises (line 91)
    | some σt =>
      match s1.threshold_T with
      | none => (GnRet.err, s1, [evT])  -- `>= None` raises TypeError
      | some T =>
        if listMax thresh_votes + ext.normal0 σt ≥ T then
          let s2 := { s1 with votes_log := s1.votes_log ++ [(votes, thresh_votes, true)] }
          let s3 := add_rdp_loss ext s2 votes (some s2.sigma_votes) false
          let mean := votes.map (fun _ => (1 : ℝ))
          (GnRet.label (argmaxIdx (addVec votes (ext.normal_vec mean σt))), s3,
           [evT, Event.releaseCost (some s2.sigma_votes) votes, Event.noise mean σt])
        else
          match s1.threshold_gamma with
          | none => (GnRet.err, s1, [evT])  -- `> None` raises TypeError
          | some γ =>
            let ret := if listMax preds > γ then GnRet.label (argmaxIdx preds) else GnRet.noAnswer
            let s2 := { s1 with votes_log := s1.votes_log ++ [(votes, thresh_votes, false)] }
            (ret, s2, [evT])
  else
    -- unreachable for states built by __init__ (mode is one of 0, 1, 2):
    -- Python would append to the log and return None
    let s1 := { s with votes_log := s.votes_log ++ [(votes, votes, false)] }
    (GnRet.noAnswer, s1, [])

/-- A sequence of `gn_max` calls, threading the accountant state. -/
noncomputable def runQueries (ext : Externals) (s : PATEState) :
    List (List ℝ × List ℝ) → PATEState
  | [] => s
  | (votes, preds) :: rest => runQueries ext (gn_max ext s votes preds).2.1 rest

/-- `_data_dependent_rdp`: computes `(eps, order) = rdp_to_dp(...)` and
caches both on first call; later calls return the cached epsilon. -/
noncomputable def data_dependent_rdp (ext : Externals) (s : PATEState) : ℝ × PATEState :=
  match s.data_dependent_eps with
  | some e => (e, s)
  | none =>
      let eo := ext.rdp_to_dp s.orders s.rdp_eps_by_order s.target_delta
      (eo.1, { s with selected_order := some eo.2, data_dependent_eps := some eo.1 })

/-- `release_epsilon_fixed_order()`: reads the stale `order` attribute
(line `order = self.selected_order` runs before `_data_dependent_rdp`),
then walks `votes_log`; the Python loop body ends in an unconditional
`return`, so only the head of the log is ever processed, and an empty log
falls through to Python's implicit `return None` (modelled as `none`).
`beta = 0.4 / self.selected_order` re-reads the attribute, which
`_data_dependent_rdp` has just set (the `getD 0` default is unreachable;
Python would raise there on `0.4 / None`). -/
noncomputable def release_epsilon_fixed_order (ext : Externals) (s : PATEState) :
    Option (ℝ × ℝ × ℝ) × PATEState × List Event :=
  let order := s.selected_order
  let dde := (data_dependent_rdp ext s).1
  let s1 := (data_dependent_rdp ext s).2
  match s1.votes_log with
  | [] => (none, s1, [])
  | (votes, thresh_votes, released) :: _ =>
      let ls0 : ℕ → ℝ := fun _ => 0  -- np.zeros(n_teachers)
      let ls1 : ℕ → ℝ :=
        if s1.threshold_mode ≠ basic_mode then
          fun i => ls0 i +
            ext.local_sensitivity thresh_votes s1.n_teachers s1.sigma_thresh order s1.threshold_T i
        else ls0
      let ev1 : List Event :=
        if s1.threshold_mode ≠ basic_mode then
          [Event.lsThresh thresh_votes s1.sigma_thresh order s1.threshold_T]
        else []
      let ls2 : ℕ → ℝ :=
        if released then
          fun i => ls1 i +
            ext.local_sensitivity votes s1.n_teachers (some s1.sigma_votes) order none i
        else ls1
      let ev2 : List Event :=
        if released then ev1 ++ [Event.lsRelease votes s1.sigma_votes order] else ev1
      let beta := 0.4 / (s1.selected_order.getD 0)
      let smooth_s := ext.local_to_smooth_sens beta ls2
      let eps_release_rdp := ext.rdp_eps_release beta s1.sigma_eps_release order
      let release_mean := dde + eps_release_rdp
      let release_sdev := smooth_s * s1.sigma_eps_release
      let release_sample := ext.np_normal release_mean release_sdev
      (some (release_sample, release_mean, release_sdev), s1,
       ev2 ++ [Event.epsRelease beta s1.sigma_eps_release order])

/-- The precondition of the monotonicity claim: the two external cost
functions return non-negative per-order vectors. -/
def NonnegCosts (ext : Externals) : Prop :=
  (∀ σ os T v i, 0 ≤ ext.rdp_threshold σ os T v i) ∧
  (∀ σ os lq i, 0 ≤ ext.rdp_max_vote σ os lq i)

/-- A simple concrete external library used to instantiate theorems on
concrete inputs: both cost functions return the constant `c` at every
order, `rdp_to_dp` returns `(0, 3)`, and all noise draws are `0`
(`normal_vec` returns the zero vector, so the released argmax is the
plain argmax of the votes). -/
noncomputable def extC (c : ℝ) : Externals where
  get_log_q := fun v _ => v
  rdp_max_vote := fun _ _ _ _ => c
  rdp_threshold := fun _ _ _ _ _ => c
  rdp_to_dp := fun _ _ _ => (0, 3)
  local_sensitivity := fun _ _ _ _ _ _ => 0
  local_to_smooth_sens := fun _ _ => 0
  rdp_eps_release := fun _ _ _ => 0
  normal_vec := fun mean _ => mean.map (fun _ => 0)
  normal0 := fun _ => 0
  np_normal := fun mean _ => mean

/-- A small concrete accountant state (2 teachers, order grid `[2, 3]`,
zero accumulator, empty log) used to instantiate theorems. -/
noncomputable def stBase (mode : ℕ) (T γ σt : Option ℝ) : PATEState where
  n_teachers := 2
  orders := [2, 3]
  target_delta := 1 / 100000
  sigma_votes := 1
  sigma_thresh := σt
  sigma_eps_release := 1
  threshold_mode := mode
  threshold_T := T
  threshold_gamma := γ
  rdp_eps_by_order := fun _ => 0
  votes_log := []
  selected_order := none
  data_dependent_eps := none

/-- A concrete state with one logged record, for instantiating the release
theorems. -/
noncomputable def stW : PATEState :=
  { stBase basic_mode none none none with votes_log := [([1], [1], true)] }

theorem add_rdp_loss_true (ext : Externals) (s : PATEState) (v : List ℝ) (σ : Option ℝ) :
    add_rdp_loss ext s v σ true =
      { s with rdp_eps_by_order := fun i =>
          s.rdp_eps_by_order i + ext.rdp_threshold σ s.orders s.threshold_T v i } := rfl

theorem add_rdp_loss_false (ext : Externals) (s : PATEState) (v : List ℝ) (σ : Option ℝ) :
    add_rdp_loss ext s v σ false =
      { s with rdp_eps_by_order := fun i =>
          s.rdp_eps_by_order i + ext.rdp_max_vote σ s.orders (ext.get_log_q v σ) i } := rfl

theorem add_rdp_loss_fields (ext : Externals) (s : PATEState) (v : List ℝ)
    (σ : Option ℝ) (b : Bool) :
    (add_rdp_loss ext s v σ b).threshold_T = s.threshold_T ∧
    (add_rdp_loss ext s v σ b).threshold_gamma = s.threshold_gamma ∧
    (add_rdp_loss ext s v σ b).sigma_thresh = s.sigma_thresh ∧
    (add_rdp_loss ext s v σ b).sigma_votes = s.sigma_votes ∧
    (add_rdp_loss ext s v σ b).votes_log = s.votes_log ∧
    (add_rdp_loss ext s v σ b).orders = s.orders ∧
    (add_rdp_loss ext s v σ b).n_teachers = s.n_teachers := by
  unfold add_rdp_loss
  cases b <;> simp

/-- One `gn_max` call never decreases any entry of the accumulator, given
non-negative cost vectors. -/
theorem gn_max_step_rdp_le (ext : Externals) (h : NonnegCosts ext)
    (s : PATEState) (votes preds : List ℝ) (i : ℕ) :
    s.rdp_eps_by_order i ≤ (gn_max ext s votes preds).2.1.rdp_eps_by_order i := by
  obtain ⟨hth, hmv⟩ := h
  have a1 := hth s.sigma_thresh s.orders s.threshold_T votes i
  have a2 := hth s.sigma_thresh s.orders s.threshold_T
    (List.zipWith (fun v p => v - (s.n_teachers : ℝ) * p) votes preds) i
  have a3 := hmv (some s.sigma_votes) s.orders (ext.get_log_q votes (some s.sigma_votes)) i
  unfold gn_max
  simp only [add_rdp_loss_true, add_rdp_loss_false]
  repeat' split
  all_goals dsimp only
  all_goals linarith

/-- C1: for every sequence of `gn_max` calls (any mode) and every order in
the grid, the cumulative RDP loss `rdp_eps_by_order` is monotonically
non-decreasing after each call, provided the external cost functions
`rdp_threshold` and `rdp_max_vote` return non-negative per-order vectors.
(The state `s` is universally quantified, so this bounds every step of
every call sequence.) -/
theorem rdp_eps_by_order_monotone (ext : Externals) (h : NonnegCosts ext)
    (s : PATEState) (qs : List (List ℝ × List ℝ)) (i : ℕ) :
    s.rdp_eps_by_order i ≤ (runQueries ext s qs).rdp_eps_by_order i := by
  induction qs generalizing s with
  | nil => simp [runQueries]
  | cons q rest ih =>
      obtain ⟨votes, preds⟩ := q
      have h1 := gn_max_step_rdp_le ext h s votes preds i
      have h2 := ih ((gn_max ext s votes preds).2.1)
      simp only [runQueries]
      linarith

/-- Witness for C1: concrete run of one basic-mode query with the
all-zero cost library. -/
theorem rdp_eps_by_order_monotone_witness :
    (stBase basic_mode none none none).rdp_eps_by_order 0 ≤
      (runQueries (extC 0) (stBase basic_mode none none none)
        [([3, 0], [1, 0])]).rdp_eps_by_order 0 :=
  rdp_eps_by_order_monotone (extC 0)
    ⟨fun _ _ _ _ _ => le_rfl, fun _ _ _ _ => le_rfl⟩
    (stBase basic_mode none none none) [([3, 0], [1, 0])] 0

/-- C8 (counterexample): at the default basic-mode configuration
(`sigma_thresh = None`, which `__init__` never sets in basic mode) a
`gn_max` call raises a `TypeError` at the release noise draw
`pt.normal(pt.ones_like(votes), None)` on line 101 — after the release
cost has been added and the record logged — so it does not return a
released label. -/
theorem gn_max_basic_default_raises_cx :
    (stBase basic_mode none none none).threshold_mode = basic_mode ∧
    (stBase basic_mode none none none).sigma_thresh = none ∧
    (gn_max (extC 0) (stBase basic_mode none none none) [3, 0] [1, 0]).1 =
      GnRet.err ∧
    ∀ i, (gn_max (extC 0) (stBase basic_mode none none none) [3, 0] [1, 0]).1 ≠
      GnRet.label i := by
  refine ⟨rfl, rfl, ?_, ?_⟩ <;>
    simp [gn_max, stBase, extC, add_rdp_loss_false, basic_mode]

/-- C8 (as amended): in basic mode with `sigma_thresh` actually set, every
`gn_max` call returns a released label (never "no answer" and never an
error), the trace contains no `rdp_threshold` call, and the accumulator
changes exactly by the `rdp_max_vote` release cost.  (With the default
`sigma_thresh = None` the call raises at the line-101 noise draw instead
of returning a label — see the counterexample.) -/
theorem gn_max_basic_mode_releases (ext : Externals) (s : PATEState)
    (votes preds : List ℝ) (σt : ℝ) (h : s.threshold_mode = basic_mode)
    (hσ : s.sigma_thresh = some σt) :
    (∃ i, (gn_max ext s votes preds).1 = GnRet.label i) ∧
    (∀ e ∈ (gn_max ext s votes preds).2.2, e.isThreshCost = false) ∧
    (∀ j, (gn_max ext s votes preds).2.1.rdp_eps_by_order j =
        s.rdp_eps_by_order j +
          ext.rdp_max_vote (some s.sigma_votes) s.orders
            (ext.get_log_q votes (some s.sigma_votes)) j) := by
  refine ⟨⟨argmaxIdx (addVec votes
      (ext.normal_vec (votes.map fun _ => (1 : ℝ)) σt)), ?_⟩, ?_, ?_⟩ <;>
    simp [gn_max, h, hσ, add_rdp_loss_false, Event.isThreshCost]

/-- Witness for the amended C8 at a concrete basic-mode state with
`sigma_thresh = 1` and a concrete query. -/
theorem gn_max_basic_mode_releases_witness :
    (∃ i, (gn_max (extC 0) (stBase basic_mode none none (some 1)) [3, 0] [1, 0]).1 =
        GnRet.label i) ∧
    (∀ e ∈ (gn_max (extC 0) (stBase basic_mode none none (some 1)) [3, 0] [1, 0]).2.2,
        e.isThreshCost = false) ∧
    (∀ j, (gn_max (extC 0) (stBase basic_mode none none (some 1))
          [3, 0] [1, 0]).2.1.rdp_eps_by_order j =
        (stBase basic_mode none none (some 1)).rdp_eps_by_order j +
          (extC 0).rdp_max_vote (some (stBase basic_mode none none (some 1)).sigma_votes)
            (stBase basic_mode none none (some 1)).orders
            ((extC 0).get_log_q [3, 0]
              (some (stBase basic_mode none none (some 1)).sigma_votes)) j) :=
  gn_max_basic_mode_releases (extC 0) (stBase basic_mode none none (some 1))
    [3, 0] [1, 0] 1 rfl rfl

/-- C2: with a non-empty query log, `release_epsilon_fixed_order` returns
inside the first loop iteration: the published triple is the same as if
the log contained only its first record, and a triple is returned. -/
theorem release_uses_only_first_record (ext : Externals) (s : PATEState)
    (r : VoteRec) (rest : List VoteRec) (h : s.votes_log = r :: rest) :
    (release_epsilon_fixed_order ext s).1 =
      (release_epsilon_fixed_order ext { s with votes_log := [r] }).1 ∧
    ((release_epsilon_fixed_order ext s).1).isSome = true := by
  obtain ⟨v, tv, rel⟩ := r
  cases hc : s.data_dependent_eps with
  | some e =>
      constructor <;> simp [release_epsilon_fixed_order, data_dependent_rdp, h, hc]
  | none =>
      constructor <;> simp [release_epsilon_fixed_order, data_dependent_rdp, h, hc]

/-- Witness for C2: a concrete one-record log yields a returned triple. -/
theorem release_uses_only_first_record_witness :
    ((release_epsilon_fixed_order (extC 0) stW).1).isSome = true :=
  (release_uses_only_first_record (extC 0) stW ([1], [1], true) [] rfl).2

/-- C5 (code evaluated at the failing input): with an empty query log the
release step does not raise a "no data to release" error; the loop body
never runs and the function silently returns Python `None`. -/
theorem release_empty_log_returns_none :
    (release_epsilon_fixed_order (extC 0) (stBase basic_mode none none none)).1 = none := by
  simp [release_epsilon_fixed_order, data_dependent_rdp, stBase, extC]

/-- C6 (code evaluated at the failing input): constructing with mode
"confident" or "interactive" while omitting `threshold_t`,
`threshold_gamma` and `sigma_thresh` succeeds (no configuration error is
raised); only an unknown mode name fails the construction-time assert. -/
theorem init_missing_params_not_checked :
    (pate_init (1 / 100000) 1 5 1 "confident" none none none true).isSome = true ∧
    (pate_init (1 / 100000) 1 5 1 "interactive" none none none true).isSome = true ∧
    (pate_init (1 / 100000) 1 5 1 "bogus" none none none true).isSome = false := by
  refine ⟨?_, ?_, ?_⟩ <;> simp [pate_init, get_threshold_mode]

/-- C4 (code evaluated at the failing input): when basic mode releases, the
noise added to the votes before the argmax is drawn with mean vector
`ones_like(votes)` (not zero) and scale `sigma_thresh` (here 2), not
`sigma_votes` (here 1), the scale the release cost `rdp_max_vote` is
charged for; and with the default `sigma_thresh = None` no draw happens at
all — the call raises at line 101 with only the release-cost call traced. -/
theorem gn_max_release_noise_args :
    (gn_max (extC 0) (stBase basic_mode none none (some 2)) [3, 0] [1, 0]).2.2 =
      [Event.releaseCost (some 1) [3, 0], Event.noise [1, 1] 2] ∧
    [(1 : ℝ), 1] ≠ [0, 0] ∧
    (2 : ℝ) ≠ (stBase basic_mode none none (some 2)).sigma_votes ∧
    (gn_max (extC 0) (stBase basic_mode none none none) [3, 0] [1, 0]).2.2 =
      [Event.releaseCost (some 1) [3, 0]] := by
  refine ⟨?_, ?_, ?_, ?_⟩
  · simp [gn_max, stBase, add_rdp_loss_false, basic_mode]
  · simp
  · norm_num [stBase]
  · simp [gn_max, stBase, add_rdp_loss_false, basic_mode]

/-- C10: on a fresh accountant (no cached order), the first release call
passes `order = None` to every `local_sensitivity` and `rdp_eps_release`
call, while `beta = 0.4 / selected_order` already uses the freshly cached
selected order; the call caches that order, and a subsequent release call
passes the actual selected order to those functions. -/
theorem release_stale_order (ext : Externals) (s : PATEState) (r : VoteRec)
    (rest : List VoteRec) (h1 : s.votes_log = r :: rest)
    (h2 : s.selected_order = none) (h3 : s.data_dependent_eps = none) :
    (∀ e ∈ (release_epsilon_fixed_order ext s).2.2,
        ∀ oa, e.orderArg = some oa → oa = none) ∧
    Event.epsRelease
        (0.4 / (ext.rdp_to_dp s.orders s.rdp_eps_by_order s.target_delta).2)
        s.sigma_eps_release none ∈ (release_epsilon_fixed_order ext s).2.2 ∧
    (release_epsilon_fixed_order ext s).2.1.selected_order =
      some (ext.rdp_to_dp s.orders s.rdp_eps_by_order s.target_delta).2 ∧
    (∀ e ∈ (release_epsilon_fixed_order ext
          (release_epsilon_fixed_order ext s).2.1).2.2,
        ∀ oa, e.orderArg = some oa →
          oa = some (ext.rdp_to_dp s.orders s.rdp_eps_by_order s.target_delta).2) := by
  obtain ⟨v, tv, rel⟩ := r
  by_cases hb : s.threshold_mode = basic_mode <;> cases rel <;>
    refine ⟨?_, ?_, ?_, ?_⟩ <;>
      simp [release_epsilon_fixed_order, data_dependent_rdp, h1, h2, h3, hb,
        Event.orderArg]

/-- Witness for C10: the first release call on a fresh one-record
accountant caches the order returned by `rdp_to_dp`. -/
theorem release_stale_order_witness :
    (release_epsilon_fixed_order (extC 0) stW).2.1.selected_order =
      some ((extC 0).rdp_to_dp stW.orders stW.rdp_eps_by_order stW.target_delta).2 :=
  (release_stale_order (extC 0) stW ([1], [1], true) [] rfl rfl rfl).2.2.1

theorem arange_length (start stop step : ℝ) :
    (arange start stop step).length = ⌈(stop - start) / step⌉₊ := by
  rw [arange, List.length_map, List.length_range]

theorem arange_short_length : (arange 2 (50 + 1) 1).length = 49 := by
  rw [arange_length]; norm_num

theorem arange_full_length : (arange 2 (100 + 1) (1 / 2)).length = 198 := by
  rw [arange_length]; norm_num

theorem logspace_length (a b : ℝ) (num : ℕ) : (logspace a b num).length = num := by
  rw [logspace, List.length_map, List.length_range]

theorem arange_getElem (start stop step : ℝ) (i : ℕ)
    (h : i < (arange start stop step).length) :
    (arange start stop step)[i] = start + (i : ℝ) * step := by
  have h' : i < ⌈(stop - start) / step⌉₊ := by rwa [arange_length] at h
  simp only [arange, List.getElem_map, List.getElem_range]

theorem logspace_getElem (a b : ℝ) (num : ℕ) (i : ℕ)
    (h : i < (logspace a b num).length) :
    (logspace a b num)[i] =
      (10 : ℝ) ^ (a + (i : ℝ) * ((b - a) / ((num : ℝ) - 1))) := by
  simp only [logspace, List.getElem_map, List.getElem_range]

theorem get_orders_true_length : (get_orders true).length = 69 := by
  rw [get_orders, if_pos rfl, List.length_map, List.length_append,
    arange_short_length, logspace_length]

theorem get_orders_false_length : (get_orders false).length = 298 := by
  rw [get_orders, if_neg (by simp), List.length_append,
    arange_full_length, logspace_length]

theorem get_orders_true_getElem_lin (i : ℕ) (hi : i < 49)
    (h : i < (get_orders true).length) :
    (get_orders true)[i] = npRound (2 + (i : ℝ)) := by
  have hA : i < (arange 2 (50 + 1) 1).length := by rw [arange_short_length]; exact hi
  simp only [get_orders, if_pos, List.getElem_map]
  rw [List.getElem_append_left hA, arange_getElem]
  norm_num

theorem get_orders_true_getElem_log (j : ℕ) (hj : j < 20)
    (h : 49 + j < (get_orders true).length) :
    (get_orders true)[49 + j] =
      npRound ((10 : ℝ) ^ (Real.logb 10 50 +
        (j : ℝ) * ((Real.logb 10 1000 - Real.logb 10 50) / 19))) := by
  have hA : (arange 2 (50 + 1) 1).length ≤ 49 + j := by rw [arange_short_length]; omega
  simp only [get_orders, if_pos, List.getElem_map]
  rw [List.getElem_append_right hA]
  have hidx : 49 + j - (arange 2 (50 + 1) 1).length = j := by
    rw [arange_short_length]; omega
  simp only [hidx]
  rw [logspace_getElem]
  all_goals norm_num [logspace_length, hj]

theorem get_orders_false_eq : get_orders false =
    arange 2 (100 + 1) (1 / 2) ++ logspace (Real.logb 10 100) (Real.logb 10 500) 100 := by
  rw [get_orders, if_neg (by simp)]

theorem get_orders_false_getElem_lin (i : ℕ) (hi : i < 198)
    (h : i < (get_orders false).length) :
    (get_orders false)[i] = 2 + (i : ℝ) * (1 / 2) := by
  have hA : i < (arange 2 (100 + 1) (1 / 2)).length := by
    rw [arange_full_length]; exact hi
  simp only [get_orders_false_eq]
  rw [List.getElem_append_left hA, arange_getElem]

theorem get_orders_false_getElem_log (j : ℕ) (hj : j < 100)
    (h : 198 + j < (get_orders false).length) :
    (get_orders false)[198 + j] =
      (10 : ℝ) ^ (Real.logb 10 100 +
        (j : ℝ) * ((Real.logb 10 500 - Real.logb 10 100) / 99)) := by
  have hA : (arange 2 (100 + 1) (1 / 2)).length ≤ 198 + j := by
    rw [arange_full_length]; omega
  simp only [get_orders_false_eq]
  rw [List.getElem_append_right hA]
  have hidx : 198 + j - (arange 2 (100 + 1) (1 / 2)).length = j := by
    rw [arange_full_length]; omega
  simp only [hidx]
  rw [logspace_getElem]
  all_goals norm_num [logspace_length, hj]

theorem npRound_le_npRound {x y : ℝ} (h : x ≤ y) : npRound x ≤ npRound y := by
  unfold npRound
  have hr : round x ≤ round y := by
    rw [round_eq, round_eq]
    exact Int.floor_le_floor (by linarith)
  exact_mod_cast hr

theorem rpow_ten_le {x y : ℝ} (h : x ≤ y) : (10 : ℝ) ^ x ≤ (10 : ℝ) ^ y := by
  rw [Real.rpow_le_rpow_left_iff (by norm_num)]
  exact h

theorem logb_50_le_1000 : Real.logb 10 50 ≤ Real.logb 10 1000 :=
  Real.logb_le_logb_of_le (by norm_num) (by norm_num) (by norm_num)

theorem get_orders_true_chain_le : List.Chain' (· ≤ ·) (get_orders true) := by
  rw [List.chain'_iff_get]
  intro i hi
  rw [get_orders_true_length] at hi
  simp only [List.get_eq_getElem]
  by_cases h1 : i + 1 < 49
  · rw [get_orders_true_getElem_lin i (by omega),
      get_orders_true_getElem_lin (i + 1) h1]
    apply npRound_le_npRound
    push_cast
    linarith
  by_cases h2 : i = 48
  · subst h2
    rw [get_orders_true_getElem_lin 48 (by norm_num)]
    have e : (48 : ℕ) + 1 = 49 + 0 := by norm_num
    simp only [e]
    rw [get_orders_true_getElem_log 0 (by norm_num)]
    apply npRound_le_npRound
    push_cast
    norm_num
  · obtain ⟨j, rfl⟩ : ∃ j, i = 49 + j := ⟨i - 49, by omega⟩
    rw [get_orders_true_getElem_log j (by omega)]
    have e : 49 + j + 1 = 49 + (j + 1) := by omega
    simp only [e]
    rw [get_orders_true_getElem_log (j + 1) (by omega)]
    apply npRound_le_npRound
    apply rpow_ten_le
    have hd : 0 ≤ (Real.logb 10 1000 - Real.logb 10 50) / 19 := by
      have := logb_50_le_1000; linarith
    have hj : (j : ℝ) * ((Real.logb 10 1000 - Real.logb 10 50) / 19) ≤
        ((j : ℝ) + 1) * ((Real.logb 10 1000 - Real.logb 10 50) / 19) := by nlinarith
    push_cast
    linarith

theorem get_orders_true_head : (get_orders true).head? = some 2 := by
  rw [List.head?_eq_getElem?,
    List.getElem?_eq_getElem (by rw [get_orders_true_length]; norm_num)]
  rw [get_orders_true_getElem_lin 0 (by norm_num)]
  norm_num [npRound]

theorem get_orders_true_last : (get_orders true).getLast? = some 1000 := by
  rw [List.getLast?_eq_getElem?, get_orders_true_length]
  norm_num
  rw [List.getElem?_eq_getElem (by rw [get_orders_true_length]; norm_num)]
  have e : (68 : ℕ) = 49 + 19 := by norm_num
  simp only [e]
  rw [get_orders_true_getElem_log 19 (by norm_num)]
  have he : Real.logb 10 50 + ((19 : ℕ) : ℝ) *
      ((Real.logb 10 1000 - Real.logb 10 50) / 19) = Real.logb 10 1000 := by
    push_cast
    field_simp
  rw [he, Real.rpow_logb (by norm_num) (by norm_num) (by norm_num)]
  norm_num [npRound]

theorem get_orders_false_last : (get_orders false).getLast? = some 500 := by
  rw [List.getLast?_eq_getElem?, get_orders_false_length]
  norm_num
  rw [List.getElem?_eq_getElem (by rw [get_orders_false_length]; norm_num)]
  have e : (297 : ℕ) = 198 + 99 := by norm_num
  simp only [e]
  rw [get_orders_false_getElem_log 99 (by norm_num)]
  have he : Real.logb 10 100 + ((99 : ℕ) : ℝ) *
      ((Real.logb 10 500 - Real.logb 10 100) / 99) = Real.logb 10 500 := by
    push_cast
    field_simp
  rw [he, Real.rpow_logb (by norm_num) (by norm_num) (by norm_num)]


/-- C9 (counterexample): neither preset order grid is strictly
increasing.  In the short grid the linear part ends with `round(50) = 50`
(index 48) and the rounded log part starts with
`round(10 ^ log10(50)) = 50` (index 49), an equal adjacent pair.  In the
full grid the linear part `np.arange(2, 101, 0.5)` ends with `100.5`
(index 197) while the log part starts at `100` (index 198), so the full
grid even decreases there (it is not monotone at all). -/
theorem get_orders_not_strictly_increasing :
    ¬ List.Chain' (· < ·) (get_orders true) ∧
    ¬ List.Chain' (· < ·) (get_orders false) ∧
    ¬ List.Chain' (· ≤ ·) (get_orders false) := by
  refine ⟨?_, ?_, ?_⟩
  · intro hch
    have h48 := List.chain'_iff_get.mp hch 48 (by rw [get_orders_true_length]; norm_num)
    simp only [List.get_eq_getElem] at h48
    rw [get_orders_true_getElem_lin 48 (by norm_num)] at h48
    have e : (48 : ℕ) + 1 = 49 + 0 := by norm_num
    simp only [e] at h48
    rw [get_orders_true_getElem_log 0 (by norm_num)] at h48
    have e0 : Real.logb 10 50 + ((0 : ℕ) : ℝ) *
        ((Real.logb 10 1000 - Real.logb 10 50) / 19) = Real.logb 10 50 := by
      push_cast; ring
    rw [e0, Real.rpow_logb (by norm_num) (by norm_num) (by norm_num)] at h48
    have e1 : (2 : ℝ) + ((48 : ℕ) : ℝ) = 50 := by push_cast; norm_num
    rw [e1] at h48
    exact lt_irrefl _ h48
  · intro hch
    have h := List.chain'_iff_get.mp hch 197 (by rw [get_orders_false_length]; norm_num)
    simp only [List.get_eq_getElem] at h
    rw [get_orders_false_getElem_lin 197 (by norm_num)] at h
    have e : (197 : ℕ) + 1 = 198 + 0 := by norm_num
    simp only [e] at h
    rw [get_orders_false_getElem_log 0 (by norm_num)] at h
    have e0 : Real.logb 10 100 + ((0 : ℕ) : ℝ) *
        ((Real.logb 10 500 - Real.logb 10 100) / 99) = Real.logb 10 100 := by
      push_cast; ring
    rw [e0, Real.rpow_logb (by norm_num) (by norm_num) (by norm_num)] at h
    norm_num at h
  · intro hch
    have h := List.chain'_iff_get.mp hch 197 (by rw [get_orders_false_length]; norm_num)
    simp only [List.get_eq_getElem] at h
    rw [get_orders_false_getElem_lin 197 (by norm_num)] at h
    have e : (197 : ℕ) + 1 = 198 + 0 := by norm_num
    simp only [e] at h
    rw [get_orders_false_getElem_log 0 (by norm_num)] at h
    have e0 : Real.logb 10 100 + ((0 : ℕ) : ℝ) *
        ((Real.logb 10 500 - Real.logb 10 100) / 99) = Real.logb 10 100 := by
      push_cast; ring
    rw [e0, Real.rpow_logb (by norm_num) (by norm_num) (by norm_num)] at h
    norm_num at h

/-- C9 (as amended): the short grid is non-decreasing (not strictly: 50 is
duplicated at the linear/log junction) with first element 2 and last
element 1000; the full grid is not monotone at its junction, but its last
element is 500 (within the claimed bound). -/
theorem get_orders_nondecreasing_bounds :
    List.Chain' (· ≤ ·) (get_orders true) ∧
    (get_orders true).head? = some 2 ∧
    (get_orders true).getLast? = some 1000 ∧
    (get_orders false).getLast? = some 500 :=
  ⟨get_orders_true_chain_le, get_orders_true_head, get_orders_true_last,
    get_orders_false_last⟩


end Patepy
